import Mathlib

/-!
Shallow embedding of `src/backend/validator/video_quality_validator.py`
(class `VideoQualityValidator` and the module-level `validate_video_file`).

Modelling conventions:
* Python floats (frame metrics, percentages) are modelled as exact
  rationals `ℚ`; the spec itself describes the percentages as
  integer-over-integer division scaled by 100.
* The OpenCV capture object is modelled as a `VideoStream`: the
  `isOpened` flag, the reported frame count and fps, and three
  index-indexed oracles for `grab`, `retrieve` and the guarded
  decode/metric block.  A per-frame exception inside the `try` block
  (in practice raised by `cvtColor`, the first statement of the block)
  is modelled as `decode i = none`: the frame is skipped and
  contributes to no statistic.
* Python dicts with `.get(key, default)` access are modelled as records
  of `Option` fields (`none` = key absent); the empty dict `{}` returned
  on failure paths is the all-`none` record.
* Human-readable message strings are abstracted to inductive message
  tags carrying the data interpolated into them; issue strings are
  abstracted to the check (clarity/exposure/contrast) they report.
* The advisory `summary` string, the `video_path` echo and the
  `created_at` timestamp of `ValidationPipelineOutput` are plumbing
  fields referenced by no verified property and are omitted, as is the
  `include_summary` flag that only selects the summary string.
* The progress callback is modelled by a `hasCb : Bool` flag (whether a
  callback was supplied) plus a ghost trace `calls` recording every
  invocation `(analyzed_count, total_to_analyze)` in order.
* `validate_video_file` takes a `pathExists : Bool` modelling
  `Path.exists`; `__init__`'s `raise FileNotFoundError` is the
  `Except.error` branch.
-/

namespace VideoValidation

/-- Per-frame grayscale metrics: Laplacian variance (clarity), mean
intensity (exposure), standard deviation (contrast). -/
structure FrameMetrics where
  clarity : ℚ
  exposure : ℚ
  contrast : ℚ
deriving DecidableEq

/-- Model of the `cv2.VideoCapture` stream: `grabOk i` is the result of
`cap.grab()` when positioned at absolute frame index `i`, `retrieveOk i`
the boolean result of `cap.retrieve()` there, and `decode i` the guarded
grayscale-conversion and metric computation (`none` = the caught
per-frame exception). -/
structure VideoStream where
  opened : Bool
  total_frames : Nat
  fps : ℚ
  grabOk : Nat → Bool
  retrieveOk : Nat → Bool
  decode : Nat → Option FrameMetrics

/-- `MIN_CLARITY` threshold (Laplacian variance). -/
def MIN_CLARITY : ℚ := 20

/-- `MIN_EXPOSURE` threshold (mean pixel intensity). -/
def MIN_EXPOSURE : ℚ := 60

/-- `MAX_EXPOSURE` threshold (mean pixel intensity). -/
def MAX_EXPOSURE : ℚ := 200

/-- `MIN_CONTRAST` threshold (standard deviation). -/
def MIN_CONTRAST : ℚ := 25

/-- `MAX_BLURRY_PCT` validation threshold. -/
def MAX_BLURRY_PCT : ℚ := 10

/-- `MAX_EXPOSURE_PCT` validation threshold. -/
def MAX_EXPOSURE_PCT : ℚ := 10

/-- `MAX_LOW_CONTRAST_PCT` validation threshold. -/
def MAX_LOW_CONTRAST_PCT : ℚ := 10

/-- The stats dictionary built by `analyze_video_quality` and consumed by
`validate_quality`, as a record of `Option` fields (`none` = key
absent, matching Python's `dict.get` defaulting). -/
structure StatsDict where
  clarity : Option (List ℚ)
  exposure : Option (List ℚ)
  contrast : Option (List ℚ)
  num_images : Option Nat
  blurry : Option Nat
  under_exposed : Option Nat
  over_exposed : Option Nat
  low_contrast : Option Nat
  total_frames : Option Nat
  fps : Option ℚ
  sample_rate : Option Nat
  frames_analyzed : Option Int
deriving DecidableEq

/-- The empty dict `{}` returned by the failure paths. -/
def StatsDict.empty : StatsDict :=
  ⟨none, none, none, none, none, none, none, none, none, none, none, none⟩

/-- Message returned by `analyze_video_quality`, abstracted to its kind
plus the interpolated data: `completed analyzed lo hi sr` is the success
message reporting `analyzed` frames over range `lo`-`hi` with stride
`sr`; `analysisError` is the outer exception handler (reached in the
model only by the `ZeroDivisionError` of a zero `sample_rate`). -/
inductive AnalyzeMessage
  | unopenable
  | noFramesAnalyzed
  | analysisError
  | completed (analyzed lo hi sr : Nat)
deriving DecidableEq

/-- One of the three validation checks; an entry of the `issues` list is
abstracted to the check whose issue string it is. -/
inductive Check
  | clarity
  | exposure
  | contrast
deriving DecidableEq

/-- One line of a `details` bucket: the copied top-level issue string of
a check, or one of the two exposure sub-lines with its percentage. -/
inductive DetailLine
  | issue (c : Check)
  | underSub (pct : ℚ)
  | overSub (pct : ℚ)
deriving DecidableEq

/-- The `details` mapping with its three fixed keys. -/
structure Details where
  clarity : List DetailLine
  exposure : List DetailLine
  contrast : List DetailLine
deriving DecidableEq

/-- The five percentages of `validation_result["stats"]`. -/
structure ValStats where
  blurry_pct : ℚ
  exposure_pct : ℚ
  under_exposed_pct : ℚ
  over_exposed_pct : ℚ
  low_contrast_pct : ℚ
deriving DecidableEq

/-- The `validation_result` dict built by `validate_quality`. -/
structure ValidationResult where
  passed : Bool
  issues : List Check
  details : Details
  stats : ValStats
deriving DecidableEq

/-- Message returned by `validate_quality`: the no-data failure text, the
passed banner, or the failed banner listing the issues and their count. -/
inductive ValidateMessage
  | noData
  | passedMsg
  | failedMsg (issueCount : Nat)
deriving DecidableEq

/-- Return value of `validate_quality`: the `(success, message,
validation_result)` tuple, with `result = none` for the `{}` of the
failure path. -/
structure ValidateOutput where
  success : Bool
  message : ValidateMessage
  result : Option ValidationResult
deriving DecidableEq

/-- `100 * stats.get("blurry", 0) / num_images` (line 211). -/
def blurryPct (sd : StatsDict) : ℚ :=
  100 * (sd.blurry.getD 0 : ℚ) / (sd.num_images.getD 0 : ℚ)

/-- `100 * stats.get("under_exposed", 0) / num_images` (line 212). -/
def underExposedPct (sd : StatsDict) : ℚ :=
  100 * (sd.under_exposed.getD 0 : ℚ) / (sd.num_images.getD 0 : ℚ)

/-- `100 * stats.get("over_exposed", 0) / num_images` (line 213). -/
def overExposedPct (sd : StatsDict) : ℚ :=
  100 * (sd.over_exposed.getD 0 : ℚ) / (sd.num_images.getD 0 : ℚ)

/-- `100 * stats.get("low_contrast", 0) / num_images` (line 214). -/
def lowContrastPct (sd : StatsDict) : ℚ :=
  100 * (sd.low_contrast.getD 0 : ℚ) / (sd.num_images.getD 0 : ℚ)

/-- `under_exposed_pct + over_exposed_pct` (line 215). -/
def exposurePct (sd : StatsDict) : ℚ :=
  underExposedPct sd + overExposedPct sd

/-- `VideoQualityValidator.validate_quality` (lines 196-261). -/
def validate_quality (stats : StatsDict) : ValidateOutput :=
  let num_images := stats.num_images.getD 0
  if num_images = 0 then
    ⟨false, .noData, none⟩
  else
    let bp := blurryPct stats
    let up := underExposedPct stats
    let op := overExposedPct stats
    let lp := lowContrastPct stats
    let ep := up + op
    let issues1 : List Check := if bp > MAX_BLURRY_PCT then [.clarity] else []
    let dClarity : List DetailLine :=
      if bp > MAX_BLURRY_PCT then [.issue .clarity] else []
    let issues2 : List Check :=
      if ep > MAX_EXPOSURE_PCT then issues1 ++ [.exposure] else issues1
    let dExposure : List DetailLine :=
      if ep > MAX_EXPOSURE_PCT then
        [.issue .exposure]
          ++ (if up > 0 then [.underSub up] else [])
          ++ (if op > 0 then [.overSub op] else [])
      else []
    let issues3 : List Check :=
      if lp > MAX_LOW_CONTRAST_PCT then issues2 ++ [.contrast] else issues2
    let dContrast : List DetailLine :=
      if lp > MAX_LOW_CONTRAST_PCT then [.issue .contrast] else []
    let passed := issues3.isEmpty
    let vr : ValidationResult :=
      ⟨passed, issues3, ⟨dClarity, dExposure, dContrast⟩, ⟨bp, ep, up, op, lp⟩⟩
    ⟨true, if passed then .passedMsg else .failedMsg issues3.length, some vr⟩

/-- Mutable state of the analysis `while` loop: the three metric lists
and counters of the `stats` dict, the `analyzed_count` local, and the
ghost trace of progress-callback invocations. -/
structure LoopState where
  clarity : List ℚ
  exposure : List ℚ
  contrast : List ℚ
  num_images : Nat
  blurry : Nat
  under_exposed : Nat
  over_exposed : Nat
  low_contrast : Nat
  analyzed_count : Nat
  calls : List (Nat × Int)
deriving DecidableEq

/-- Initial loop state: empty lists, zero counters (lines 106-122). -/
def initState : LoopState :=
  ⟨[], [], [], 0, 0, 0, 0, 0, 0, []⟩

/-- Body of the per-frame `try` block on a successfully converted frame
(lines 142-168): append the three metrics, apply the three threshold
checks, bump `analyzed_count` and `num_images`, and (when a callback was
supplied) invoke it with `(analyzed_count, total_to_analyze)`. -/
def processFrame (hasCb : Bool) (tta : Int) (m : FrameMetrics) (st : LoopState) :
    LoopState :=
  let st1 := { st with
    clarity := st.clarity ++ [m.clarity]
    blurry := if m.clarity < MIN_CLARITY then st.blurry + 1 else st.blurry }
  let st2 := { st1 with
    exposure := st1.exposure ++ [m.exposure]
    under_exposed :=
      if m.exposure < MIN_EXPOSURE then st1.under_exposed + 1 else st1.under_exposed
    over_exposed :=
      if m.exposure < MIN_EXPOSURE then st1.over_exposed
      else if m.exposure > MAX_EXPOSURE then st1.over_exposed + 1
      else st1.over_exposed }
  let st3 := { st2 with
    contrast := st2.contrast ++ [m.contrast]
    low_contrast :=
      if m.contrast < MIN_CONTRAST then st2.low_contrast + 1 else st2.low_contrast }
  let ac := st3.analyzed_count + 1
  { st3 with
    analyzed_count := ac
    num_images := ac
    calls := if hasCb then st3.calls ++ [(ac, tta)] else st3.calls }

/-- The `while True` walk (lines 129-173): at frame index `i` with
`fuel` frames left before `actual_end_frame`, break when the index
reaches the end, when `grab` fails, or when `retrieve` fails on a
sampled frame; a sampled frame whose guarded block raises
(`decode i = none`) is skipped; every other frame only advances. -/
def analyzeLoop (vs : VideoStream) (sr start : Nat) (hasCb : Bool) (tta : Int) :
    Nat → Nat → LoopState → LoopState
  | _, 0, st => st
  | i, n + 1, st =>
    if vs.grabOk i = false then st
    else if (i - start) % sr = 0 then
      if vs.retrieveOk i = false then st
      else
        match vs.decode i with
        | none => analyzeLoop vs sr start hasCb tta (i + 1) n st
        | some m => analyzeLoop vs sr start hasCb tta (i + 1) n (processFrame hasCb tta m st)
    else analyzeLoop vs sr start hasCb tta (i + 1) n st

/-- `actual_end_frame` (lines 97-101): the provided `end_frame` clamped
to the stream's total frame count, or the total frame count. -/
def actualEndFrame (vs : VideoStream) (ef : Option Nat) : Nat :=
  match ef with
  | some e => min e vs.total_frames
  | none => vs.total_frames

/-- `total_to_analyze` (line 104): `(actual_end - start + sr - 1) // sr`
with Python's floor division over possibly negative integers. -/
def totalToAnalyze (vs : VideoStream) (sr start : Nat) (ef : Option Nat) : Int :=
  Int.fdiv ((actualEndFrame vs ef : Int) - (start : Int) + (sr : Int) - 1) (sr : Int)

/-- Return value of `analyze_video_quality`: the `(success, message,
stats)` tuple plus the ghost trace of progress-callback invocations. -/
structure AnalyzeOutput where
  success : Bool
  message : AnalyzeMessage
  stats : StatsDict
  calls : List (Nat × Int)
deriving DecidableEq

/-- `VideoQualityValidator.analyze_video_quality` (lines 68-194).  A zero
`sample_rate` reaches the outer exception handler through the
`ZeroDivisionError` raised at the `total_to_analyze` division, hence the
`analysisError` branch. -/
def analyze_video_quality (vs : VideoStream) (sr start : Nat) (ef : Option Nat)
    (hasCb : Bool) : AnalyzeOutput :=
  if vs.opened = false then ⟨false, .unopenable, .empty, []⟩
  else if sr = 0 then ⟨false, .analysisError, .empty, []⟩
  else
    let hi := actualEndFrame vs ef
    let tta := totalToAnalyze vs sr start ef
    let st := analyzeLoop vs sr start hasCb tta start (hi - start) initState
    if st.analyzed_count = 0 then ⟨false, .noFramesAnalyzed, .empty, st.calls⟩
    else
      ⟨true, .completed st.analyzed_count start hi sr,
        { clarity := some st.clarity
          exposure := some st.exposure
          contrast := some st.contrast
          num_images := some st.num_images
          blurry := some st.blurry
          under_exposed := some st.under_exposed
          over_exposed := some st.over_exposed
          low_contrast := some st.low_contrast
          total_frames := some vs.total_frames
          fps := some vs.fps
          sample_rate := some sr
          frames_analyzed := some tta },
        st.calls⟩

/-- The `status` string of a passing pipeline run. -/
def goodStatus : String := "good"

/-- The `status` string of a failing pipeline run. -/
def badStatus : String := "bad"

/-- `ValidationPipelineOutput` restricted to the fields the verified
properties mention (path, timestamp and summary omitted); the empty
dicts of the terminal variants are the `none`s of `details`/`stats`,
and the terminal variants' empty `validate_message` is `none`. -/
structure PipelineOutput where
  passed : Bool
  status : String
  analyze_success : Bool
  validate_success : Bool
  analyze_message : AnalyzeMessage
  validate_message : Option ValidateMessage
  issues : List Check
  details : Option Details
  stats : Option ValStats
deriving DecidableEq

/-- `VideoQualityValidator.run` (lines 330-414). -/
def run (vs : VideoStream) (sr start : Nat) (ef : Option Nat) (hasCb : Bool) :
    PipelineOutput :=
  let a := analyze_video_quality vs sr start ef hasCb
  if a.success = false then
    ⟨false, badStatus, false, false, a.message, none, [], none, none⟩
  else
    let v := validate_quality a.stats
    if v.success = false then
      ⟨false, badStatus, true, false, a.message, some v.message, [], none, none⟩
    else
      let passed := match v.result with
        | some vr => vr.passed
        | none => false
      ⟨passed, if passed then goodStatus else badStatus, true, true,
        a.message, some v.message,
        (v.result.map ValidationResult.issues).getD [],
        v.result.map ValidationResult.details,
        v.result.map ValidationResult.stats⟩

/-- The `FileNotFoundError` message raised by `__init__` (line 66). -/
def fileNotFoundMsg : String := "Video file not found"

/-- Module-level `validate_video_file` (lines 417-439): constructs the
validator (whose `__init__` raises `FileNotFoundError` when the path
does not exist) and runs it. -/
def validate_video_file (pathExists : Bool) (vs : VideoStream) (sr start : Nat)
    (ef : Option Nat) (hasCb : Bool) : Except String PipelineOutput :=
  if pathExists = false then .error fileNotFoundMsg
  else .ok (run vs sr start ef hasCb)

/-! ### Loop invariants -/

/-- Invariant of the analysis loop state: `num_images` tracks
`analyzed_count`, each metric list has one entry per analyzed frame, and
each failure counter is at most the number of analyzed frames. -/
def goodState (st : LoopState) : Prop :=
  st.num_images = st.analyzed_count ∧
  st.clarity.length = st.analyzed_count ∧
  st.exposure.length = st.analyzed_count ∧
  st.contrast.length = st.analyzed_count ∧
  st.blurry ≤ st.analyzed_count ∧
  st.under_exposed ≤ st.analyzed_count ∧
  st.over_exposed ≤ st.analyzed_count ∧
  st.low_contrast ≤ st.analyzed_count

lemma goodState_initState : goodState initState := by
  simp [goodState, initState]

lemma goodState_processFrame (hasCb : Bool) (tta : Int) (m : FrameMetrics)
    (st : LoopState) (h : goodState st) : goodState (processFrame hasCb tta m st) := by
  obtain ⟨h1, h2, h3, h4, h5, h6, h7, h8⟩ := h
  simp only [goodState, processFrame]
  split_ifs <;> simp_all <;> omega

lemma goodState_analyzeLoop (vs : VideoStream) (sr start : Nat) (hasCb : Bool)
    (tta : Int) :
    ∀ n i st, goodState st → goodState (analyzeLoop vs sr start hasCb tta i n st) := by
  intro n
  induction n with
  | zero => intro i st h; simpa [analyzeLoop] using h
  | succ n ih =>
    intro i st h
    rw [analyzeLoop]
    split
    · exact h
    · split
      · split
        · exact h
        · split
          · exact ih _ _ h
          · exact ih _ _ (goodState_processFrame _ _ _ _ h)
      · exact ih _ _ h

/-- Invariant tying the callback trace to `analyzed_count`: with a
callback supplied the trace is `[(1, t), (2, t), …, (analyzed_count, t)]`,
without one it is empty. -/
def callsSpec (hasCb : Bool) (tta : Int) (st : LoopState) : Prop :=
  st.calls =
    if hasCb then (List.range st.analyzed_count).map (fun j => (j + 1, tta)) else []

lemma callsSpec_initState (hasCb : Bool) (tta : Int) : callsSpec hasCb tta initState := by
  cases hasCb <;> simp [callsSpec, initState]

lemma callsSpec_processFrame (hasCb : Bool) (tta : Int) (m : FrameMetrics)
    (st : LoopState) (h : callsSpec hasCb tta st) :
    callsSpec hasCb tta (processFrame hasCb tta m st) := by
  cases hasCb <;> simp_all [callsSpec, processFrame, List.range_succ]

lemma callsSpec_analyzeLoop (vs : VideoStream) (sr start : Nat) (hasCb : Bool)
    (tta : Int) :
    ∀ n i st, callsSpec hasCb tta st →
      callsSpec hasCb tta (analyzeLoop vs sr start hasCb tta i n st) := by
  intro n
  induction n with
  | zero => intro i st h; simpa [analyzeLoop] using h
  | succ n ih =>
    intro i st h
    rw [analyzeLoop]
    split
    · exact h
    · split
      · split
        · exact h
        · split
          · exact ih _ _ h
          · exact ih _ _ (callsSpec_processFrame _ _ _ _ h)
      · exact ih _ _ h

/-- Erase the ghost callback trace, keeping the fields the Python code
actually stores. -/
def dropCalls (st : LoopState) : LoopState := { st with calls := [] }

lemma dropCalls_processFrame (hc hc' : Bool) (tta : Int) (m : FrameMetrics)
    (st st' : LoopState) (h : dropCalls st = dropCalls st') :
    dropCalls (processFrame hc tta m st) = dropCalls (processFrame hc' tta m st') := by
  cases st
  cases st'
  simp only [dropCalls, LoopState.mk.injEq, and_true] at h
  obtain ⟨h1, h2, h3, h4, h5, h6, h7, h8, h9⟩ := h
  subst h1 h2 h3 h4 h5 h6 h7 h8 h9
  simp [dropCalls, processFrame]

lemma dropCalls_analyzeLoop (vs : VideoStream) (sr start : Nat) (hc hc' : Bool)
    (tta : Int) :
    ∀ n i st st', dropCalls st = dropCalls st' →
      dropCalls (analyzeLoop vs sr start hc tta i n st)
        = dropCalls (analyzeLoop vs sr start hc' tta i n st') := by
  intro n
  induction n with
  | zero => intro i st st' h; simpa [analyzeLoop] using h
  | succ n ih =>
    intro i st st' h
    rw [analyzeLoop, analyzeLoop]
    by_cases hg : vs.grabOk i = false
    · simp [hg, h]
    · by_cases hs : (i - start) % sr = 0
      · by_cases hr : vs.retrieveOk i = false
        · simp [hg, hs, hr, h]
        · cases hd : vs.decode i with
          | none => simp [hg, hs, hr, hd]; exact ih _ _ _ h
          | some m =>
            simp [hg, hs, hr, hd]
            exact ih _ _ _ (dropCalls_processFrame _ _ _ _ _ _ h)
      · simp [hg, hs]; exact ih _ _ _ h

/-! ### Claim theorems -/

/-- C1: every `PipelineOutput` produced by `run` — the two
terminal-failure variants and the completed variant alike — has
`status = "good"` exactly when `passed = true`, and on both
terminal-failure variants `passed` is `false` and `status` is `"bad"`. -/
theorem C1_status_iff_passed (vs : VideoStream) (sr start : Nat) (ef : Option Nat)
    (hasCb : Bool) :
    ((run vs sr start ef hasCb).status = goodStatus
        ↔ (run vs sr start ef hasCb).passed = true) ∧
      ((run vs sr start ef hasCb).analyze_success = false →
        (run vs sr start ef hasCb).passed = false
          ∧ (run vs sr start ef hasCb).status = badStatus) ∧
      ((run vs sr start ef hasCb).validate_success = false →
        (run vs sr start ef hasCb).passed = false
          ∧ (run vs sr start ef hasCb).status = badStatus) := by
  by_cases ha : (analyze_video_quality vs sr start ef hasCb).success = false
  · simp [run, ha, goodStatus, badStatus]
  · by_cases hv :
      (validate_quality (analyze_video_quality vs sr start ef hasCb).stats).success = false
    · simp [run, ha, hv, goodStatus, badStatus]
    · cases hres :
        (validate_quality (analyze_video_quality vs sr start ef hasCb).stats).result with
      | none => simp [run, ha, hv, hres, goodStatus, badStatus]
      | some vr =>
        cases hp : vr.passed <;> simp [run, ha, hv, hres, hp, goodStatus, badStatus]

/-- C4: on every successfully analyzed frame the three classification
checks apply independently to its grayscale metrics: clarity below 20
increments `blurry`; exposure below 60 increments `under_exposed`,
otherwise exposure above 200 increments `over_exposed` (so the two
exposure counters never both move on one frame, independently of the
blurry and contrast checks); contrast below 25 increments
`low_contrast`. -/
theorem C4_frame_classification (hasCb : Bool) (tta : Int) (m : FrameMetrics)
    (st : LoopState) :
    (processFrame hasCb tta m st).blurry
        = st.blurry + (if m.clarity < MIN_CLARITY then 1 else 0) ∧
      (processFrame hasCb tta m st).under_exposed
        = st.under_exposed + (if m.exposure < MIN_EXPOSURE then 1 else 0) ∧
      (processFrame hasCb tta m st).over_exposed
        = st.over_exposed
            + (if m.exposure < MIN_EXPOSURE then 0
               else if m.exposure > MAX_EXPOSURE then 1 else 0) ∧
      (processFrame hasCb tta m st).low_contrast
        = st.low_contrast + (if m.contrast < MIN_CONTRAST then 1 else 0) ∧
      (processFrame hasCb tta m st).under_exposed
          + (processFrame hasCb tta m st).over_exposed
        ≤ st.under_exposed + st.over_exposed + 1 := by
  simp only [processFrame]
  split_ifs <;> simp_all <;> omega

/-- The boundary scenario named by C2: 50 analyzed frames, 0 blurry, 3
under-exposed, 2 over-exposed, 0 low-contrast. -/
def scenario50 : StatsDict :=
  ⟨none, none, none, some 50, some 0, some 3, some 2, some 0, none, none, none, none⟩

/-- C2: with `num_images > 0`, `validate_quality` raises the issue of a
check exactly when its percentage strictly exceeds the 10.0 threshold
(a percentage equal to 10.0 passes), `passed` holds exactly when the
issues list is empty, and the 50-frame scenario with 3 under-exposed and
2 over-exposed frames has `exposure_pct = 10.0` and passes. -/
theorem C2_strict_thresholds :
    (∀ sd : StatsDict, 0 < sd.num_images.getD 0 →
      ∃ vr, (validate_quality sd).result = some vr ∧
        (vr.passed = true ↔ vr.issues = []) ∧
        (Check.clarity ∈ vr.issues ↔ MAX_BLURRY_PCT < blurryPct sd) ∧
        (Check.exposure ∈ vr.issues ↔ MAX_EXPOSURE_PCT < exposurePct sd) ∧
        (Check.contrast ∈ vr.issues ↔ MAX_LOW_CONTRAST_PCT < lowContrastPct sd)) ∧
      exposurePct scenario50 = 10 ∧
      ∃ vr, (validate_quality scenario50).result = some vr ∧ vr.passed = true := by
  have h6 : underExposedPct scenario50 = 6 := by norm_num [underExposedPct, scenario50]
  have h4 : overExposedPct scenario50 = 4 := by norm_num [overExposedPct, scenario50]
  have hb : blurryPct scenario50 = 0 := by norm_num [blurryPct, scenario50]
  have hl : lowContrastPct scenario50 = 0 := by norm_num [lowContrastPct, scenario50]
  have hnum : ¬ scenario50.num_images.getD 0 = 0 := by norm_num [scenario50]
  refine ⟨?_, by rw [exposurePct, h6, h4]; norm_num, ?_⟩
  · intro sd h
    have hnz : ¬ sd.num_images.getD 0 = 0 := by omega
    simp only [validate_quality, hnz, if_false]
    refine ⟨_, rfl, ?_, ?_, ?_, ?_⟩ <;>
      split_ifs <;>
        simp_all [exposurePct, MAX_BLURRY_PCT, MAX_EXPOSURE_PCT, MAX_LOW_CONTRAST_PCT]
  · refine ⟨⟨true, [], ⟨[], [], []⟩, ⟨0, 10, 6, 4, 0⟩⟩, ?_, rfl⟩
    norm_num [validate_quality, hnum, hb, h6, h4, hl, MAX_BLURRY_PCT,
      MAX_EXPOSURE_PCT, MAX_LOW_CONTRAST_PCT]

/-- C3: with `num_images > 0`, `validate_quality` computes the four
percentages as integer counts divided by `num_images` scaled by 100,
`exposure_pct` as their under/over sum, and consequently
`blurry_pct + (num_images - blurry) / num_images * 100 = 100`. -/
theorem C3_percentage_formulas (sd : StatsDict) (h : 0 < sd.num_images.getD 0) :
    ∃ vr, (validate_quality sd).result = some vr ∧
      vr.stats.blurry_pct
          = 100 * (sd.blurry.getD 0 : ℚ) / (sd.num_images.getD 0 : ℚ) ∧
      vr.stats.under_exposed_pct
          = 100 * (sd.under_exposed.getD 0 : ℚ) / (sd.num_images.getD 0 : ℚ) ∧
      vr.stats.over_exposed_pct
          = 100 * (sd.over_exposed.getD 0 : ℚ) / (sd.num_images.getD 0 : ℚ) ∧
      vr.stats.low_contrast_pct
          = 100 * (sd.low_contrast.getD 0 : ℚ) / (sd.num_images.getD 0 : ℚ) ∧
      vr.stats.exposure_pct = vr.stats.under_exposed_pct + vr.stats.over_exposed_pct ∧
      vr.stats.blurry_pct
          + ((sd.num_images.getD 0 : ℚ) - (sd.blurry.getD 0 : ℚ))
              / (sd.num_images.getD 0 : ℚ) * 100
        = 100 := by
  have hnz : ¬ sd.num_images.getD 0 = 0 := by omega
  have hq : (sd.num_images.getD 0 : ℚ) ≠ 0 := by exact_mod_cast hnz
  simp only [validate_quality, hnz, if_false]
  refine ⟨_, rfl, rfl, rfl, rfl, rfl, rfl, ?_⟩
  show blurryPct sd + _ = _
  rw [blurryPct]
  field_simp
  ring

/-- C10: `validate_quality` reads every counter with a defaulted lookup:
a missing `blurry` / `under_exposed` / `over_exposed` / `low_contrast`
key acts as the count 0 and yields a 0 percentage while the call still
succeeds, and a missing `num_images` key acts as 0 and yields the
no-data failure instead of a crash. -/
theorem C10_missing_keys_default :
    (∀ sd : StatsDict, 0 < sd.num_images.getD 0 →
      (validate_quality sd).success = true ∧
        (sd.blurry = none → blurryPct sd = 0) ∧
        (sd.under_exposed = none → underExposedPct sd = 0) ∧
        (sd.over_exposed = none → overExposedPct sd = 0) ∧
        (sd.low_contrast = none → lowContrastPct sd = 0)) ∧
      ∀ sd : StatsDict, sd.num_images = none →
        validate_quality sd = ⟨false, .noData, none⟩ := by
  constructor
  · intro sd h
    have hnz : ¬ sd.num_images.getD 0 = 0 := by omega
    refine ⟨by simp [validate_quality, hnz], ?_, ?_, ?_, ?_⟩ <;>
      intro hk <;>
        simp [blurryPct, underExposedPct, overExposedPct, lowContrastPct, hk]
  · intro sd h
    simp [validate_quality, h]

lemma processFrame_clarity (hc : Bool) (tta : Int) (m : FrameMetrics) (st : LoopState) :
    (processFrame hc tta m st).clarity = st.clarity ++ [m.clarity] := by
  simp [processFrame]

lemma processFrame_exposure (hc : Bool) (tta : Int) (m : FrameMetrics) (st : LoopState) :
    (processFrame hc tta m st).exposure = st.exposure ++ [m.exposure] := by
  simp [processFrame]

lemma processFrame_contrast (hc : Bool) (tta : Int) (m : FrameMetrics) (st : LoopState) :
    (processFrame hc tta m st).contrast = st.contrast ++ [m.contrast] := by
  simp [processFrame]

lemma processFrame_analyzed_count (hc : Bool) (tta : Int) (m : FrameMetrics)
    (st : LoopState) :
    (processFrame hc tta m st).analyzed_count = st.analyzed_count + 1 := by
  simp [processFrame]

/-- The frame indices in `[lo, lo + len)` selected by the sampling
predicate `(i - start) % sample_rate == 0`. -/
def sampledIdx (sr start lo len : Nat) : List Nat :=
  (List.range' lo len).filter (fun j => decide ((j - start) % sr = 0))

lemma sampledIdx_succ (sr start lo k : Nat) :
    sampledIdx sr start lo (k + 1)
      = (if (lo - start) % sr = 0 then [lo] else []) ++ sampledIdx sr start (lo + 1) k := by
  rw [sampledIdx, List.range'_succ]
  by_cases h : (lo - start) % sr = 0 <;> simp [sampledIdx, h]

/-- On a stream that opens, delivers decodable frames at every index
below `L` and ends there, the walk starting at index `i` with `n` frames
of budget analyzes exactly the sampled indices of `[i, min L (i + n))`,
appending their three metrics in order and counting them. -/
lemma analyzeLoop_stream_spec (vs : VideoStream) (sr start : Nat) (hc : Bool)
    (tta : Int) (L : Nat) (f : Nat → FrameMetrics)
    (hg : ∀ i, vs.grabOk i = decide (i < L))
    (hr : ∀ i, vs.retrieveOk i = true)
    (hd : ∀ i, vs.decode i = some (f i)) :
    ∀ n i st,
      (analyzeLoop vs sr start hc tta i n st).clarity
          = st.clarity
            ++ (sampledIdx sr start i (min L (i + n) - i)).map (fun j => (f j).clarity)
        ∧ (analyzeLoop vs sr start hc tta i n st).exposure
          = st.exposure
            ++ (sampledIdx sr start i (min L (i + n) - i)).map (fun j => (f j).exposure)
        ∧ (analyzeLoop vs sr start hc tta i n st).contrast
          = st.contrast
            ++ (sampledIdx sr start i (min L (i + n) - i)).map (fun j => (f j).contrast)
        ∧ (analyzeLoop vs sr start hc tta i n st).analyzed_count
          = st.analyzed_count + (sampledIdx sr start i (min L (i + n) - i)).length := by
  intro n
  induction n with
  | zero =>
    intro i st
    have h0 : min L (i + 0) - i = 0 := by omega
    simp [analyzeLoop, sampledIdx, h0]
  | succ n ih =>
    intro i st
    by_cases hiL : i < L
    · have hgi : vs.grabOk i = true := by rw [hg i]; simp [hiL]
      have hmin : min L (i + (n + 1)) - i = min L (i + 1 + n) - (i + 1) + 1 := by omega
      rw [analyzeLoop, hmin, sampledIdx_succ]
      by_cases hs : (i - start) % sr = 0
      · obtain ⟨e1, e2, e3, e4⟩ := ih (i + 1) (processFrame hc tta (f i) st)
        refine ⟨?_, ?_, ?_, ?_⟩ <;>
          simp [hgi, hr i, hd i, hs, e1, e2, e3, e4, processFrame_clarity,
            processFrame_exposure, processFrame_contrast,
            processFrame_analyzed_count] <;> omega
      · obtain ⟨e1, e2, e3, e4⟩ := ih (i + 1) st
        refine ⟨?_, ?_, ?_, ?_⟩ <;> simp [hgi, hs, e1, e2, e3, e4]
    · have hgi : vs.grabOk i = false := by rw [hg i]; simp [hiL]
      have hmin : min L (i + (n + 1)) - i = 0 := by omega
      rw [analyzeLoop, hmin]
      simp [hgi, sampledIdx]

/-- C6: on a stream whose end-of-stream is index `L` and whose sampled
frames all decode, `analyze_video_quality` visits the indices from
`start` up to (exclusively) the clamped end frame — stopping earlier
only at the end of the stream — and computes the three metrics for
exactly the visited indices `i` with `(i - start) % sample_rate == 0`,
succeeding precisely when at least one index is sampled. -/
theorem C6_sampling_walk (vs : VideoStream) (sr start : Nat) (ef : Option Nat)
    (hc : Bool) (L : Nat) (f : Nat → FrameMetrics)
    (hsr : 0 < sr) (hop : vs.opened = true)
    (hg : ∀ i, vs.grabOk i = decide (i < L))
    (hr : ∀ i, vs.retrieveOk i = true)
    (hd : ∀ i, vs.decode i = some (f i)) :
    ((analyze_video_quality vs sr start ef hc).success = true
        ↔ sampledIdx sr start start (min L (actualEndFrame vs ef) - start) ≠ []) ∧
      (sampledIdx sr start start (min L (actualEndFrame vs ef) - start) ≠ [] →
        (analyze_video_quality vs sr start ef hc).stats.clarity
            = some ((sampledIdx sr start start (min L (actualEndFrame vs ef) - start)).map
                (fun j => (f j).clarity))
          ∧ (analyze_video_quality vs sr start ef hc).stats.exposure
            = some ((sampledIdx sr start start (min L (actualEndFrame vs ef) - start)).map
                (fun j => (f j).exposure))
          ∧ (analyze_video_quality vs sr start ef hc).stats.contrast
            = some ((sampledIdx sr start start (min L (actualEndFrame vs ef) - start)).map
                (fun j => (f j).contrast))
          ∧ (analyze_video_quality vs sr start ef hc).stats.num_images
            = some ((sampledIdx sr start start
                (min L (actualEndFrame vs ef) - start)).length)) := by
  have hsr0 : ¬ sr = 0 := by omega
  obtain ⟨e1, e2, e3, e4⟩ := analyzeLoop_stream_spec vs sr start hc
    (totalToAnalyze vs sr start ef) L f hg hr hd
    (actualEndFrame vs ef - start) start initState
  have hlen : min L (start + (actualEndFrame vs ef - start)) - start
      = min L (actualEndFrame vs ef) - start := by omega
  rw [hlen] at e1 e2 e3 e4
  by_cases hk0 : sampledIdx sr start start (min L (actualEndFrame vs ef) - start) = []
  · have h0 : (analyzeLoop vs sr start hc (totalToAnalyze vs sr start ef) start
        (actualEndFrame vs ef - start) initState).analyzed_count = 0 := by
      rw [e4, hk0]; simp [initState]
    simp [analyze_video_quality, hop, hsr0, h0, hk0]
  · have h0 : ¬ (analyzeLoop vs sr start hc (totalToAnalyze vs sr start ef) start
        (actualEndFrame vs ef - start) initState).analyzed_count = 0 := by
      rw [e4]
      simp only [initState, Nat.zero_add]
      simpa using fun hlen0 => hk0 (List.length_eq_zero.mp hlen0)
    have hnum : (analyzeLoop vs sr start hc (totalToAnalyze vs sr start ef) start
          (actualEndFrame vs ef - start) initState).num_images
        = (analyzeLoop vs sr start hc (totalToAnalyze vs sr start ef) start
          (actualEndFrame vs ef - start) initState).analyzed_count :=
      (goodState_analyzeLoop vs sr start hc (totalToAnalyze vs sr start ef)
        (actualEndFrame vs ef - start) start initState goodState_initState).1
    simp only [initState] at e1 e2 e3 e4 h0 hnum
    simp [analyze_video_quality, hop, hsr0, h0, hk0, e1, e2, e3, e4, hnum, initState]

/-- C7: `analyze_video_quality` returns the unopenable failure when the
stream cannot be opened and the no-frames-analyzed failure with empty
stats whenever the walk analyzed zero frames, and `validate_quality`
fails — with the no-data message and empty result — exactly when
`stats.num_images` reads as 0. -/
theorem C7_failure_taxonomy :
    (∀ (vs : VideoStream) (sr start : Nat) (ef : Option Nat) (hc : Bool),
      vs.opened = false →
        analyze_video_quality vs sr start ef hc
          = ⟨false, .unopenable, .empty, []⟩) ∧
      (∀ (vs : VideoStream) (sr start : Nat) (ef : Option Nat) (hc : Bool),
        vs.opened = true → 0 < sr →
          (analyzeLoop vs sr start hc (totalToAnalyze vs sr start ef) start
              (actualEndFrame vs ef - start) initState).analyzed_count = 0 →
            analyze_video_quality vs sr start ef hc
              = ⟨false, .noFramesAnalyzed, .empty, []⟩) ∧
      ∀ sd : StatsDict,
        ((validate_quality sd).success = false ↔ sd.num_images.getD 0 = 0) ∧
          (sd.num_images.getD 0 = 0 → validate_quality sd = ⟨false, .noData, none⟩) := by
  refine ⟨?_, ?_, ?_⟩
  · intro vs sr start ef hc h
    simp [analyze_video_quality, h]
  · intro vs sr start ef hc hop hsr h0
    have hsr0 : ¬ sr = 0 := by omega
    have hcs := callsSpec_analyzeLoop vs sr start hc (totalToAnalyze vs sr start ef)
      (actualEndFrame vs ef - start) start initState
      (callsSpec_initState hc (totalToAnalyze vs sr start ef))
    rw [callsSpec, h0] at hcs
    simp only [List.range_zero, List.map_nil, ite_self] at hcs
    simp [analyze_video_quality, hop, hsr0, h0, hcs]
  · intro sd
    constructor
    · by_cases h : sd.num_images.getD 0 = 0 <;> simp [validate_quality, h]
    · intro h
      simp [validate_quality, h]

/-- C8: after every successful analysis run the stats record carries a
`num_images` equal to the length of each of the three metric sequences,
and each of the four failure counters is at most `num_images` — decode
or convert failures on sampled frames merely skip the frame. -/
theorem C8_stats_invariants (vs : VideoStream) (sr start : Nat) (ef : Option Nat)
    (hc : Bool) (h : (analyze_video_quality vs sr start ef hc).success = true) :
    ∃ n cl ex co,
      (analyze_video_quality vs sr start ef hc).stats.num_images = some n ∧
      (analyze_video_quality vs sr start ef hc).stats.clarity = some cl ∧
      (analyze_video_quality vs sr start ef hc).stats.exposure = some ex ∧
      (analyze_video_quality vs sr start ef hc).stats.contrast = some co ∧
      cl.length = n ∧ ex.length = n ∧ co.length = n ∧
      (analyze_video_quality vs sr start ef hc).stats.blurry.getD 0 ≤ n ∧
      (analyze_video_quality vs sr start ef hc).stats.under_exposed.getD 0 ≤ n ∧
      (analyze_video_quality vs sr start ef hc).stats.over_exposed.getD 0 ≤ n ∧
      (analyze_video_quality vs sr start ef hc).stats.low_contrast.getD 0 ≤ n := by
  by_cases hop : vs.opened = false
  · simp [analyze_video_quality, hop] at h
  · by_cases hsr : sr = 0
    · simp [analyze_video_quality, hop, hsr] at h
    · by_cases h0 : (analyzeLoop vs sr start hc (totalToAnalyze vs sr start ef) start
          (actualEndFrame vs ef - start) initState).analyzed_count = 0
      · simp [analyze_video_quality, hop, hsr, h0] at h
      · obtain ⟨g1, g2, g3, g4, g5, g6, g7, g8⟩ :=
          goodState_analyzeLoop vs sr start hc (totalToAnalyze vs sr start ef)
            (actualEndFrame vs ef - start) start initState goodState_initState
        refine ⟨(analyzeLoop vs sr start hc (totalToAnalyze vs sr start ef) start
            (actualEndFrame vs ef - start) initState).num_images,
          (analyzeLoop vs sr start hc (totalToAnalyze vs sr start ef) start
            (actualEndFrame vs ef - start) initState).clarity,
          (analyzeLoop vs sr start hc (totalToAnalyze vs sr start ef) start
            (actualEndFrame vs ef - start) initState).exposure,
          (analyzeLoop vs sr start hc (totalToAnalyze vs sr start ef) start
            (actualEndFrame vs ef - start) initState).contrast,
          ?_, ?_, ?_, ?_, ?_, ?_, ?_, ?_, ?_, ?_, ?_⟩ <;>
          (try simp [analyze_video_quality, hop, hsr, h0]) <;> omega

/-- C9: within one run, the supplied progress callback is invoked once
after each successfully analyzed frame with `(completed_count,
estimated_total)` — counts `1, 2, …, num_images` with a constant
estimated total — and supplying it changes neither the result nor the
frames analyzed. -/
theorem C9_progress_callback (vs : VideoStream) (sr start : Nat) (ef : Option Nat)
    (hsr : 0 < sr) :
    (analyze_video_quality vs sr start ef true).calls
        = (List.range
              ((analyze_video_quality vs sr start ef true).stats.num_images.getD 0)).map
            (fun j => (j + 1, totalToAnalyze vs sr start ef)) ∧
      (analyze_video_quality vs sr start ef false).calls = [] ∧
      (analyze_video_quality vs sr start ef false).success
        = (analyze_video_quality vs sr start ef true).success ∧
      (analyze_video_quality vs sr start ef false).message
        = (analyze_video_quality vs sr start ef true).message ∧
      (analyze_video_quality vs sr start ef false).stats
        = (analyze_video_quality vs sr start ef true).stats := by
  have hsr0 : ¬ sr = 0 := by omega
  by_cases hop : vs.opened = false
  · simp [analyze_video_quality, hop, StatsDict.empty]
  · have hdc := dropCalls_analyzeLoop vs sr start false true
      (totalToAnalyze vs sr start ef) (actualEndFrame vs ef - start) start
      initState initState rfl
    have h9 := congrArg LoopState.analyzed_count hdc
    simp only [dropCalls] at h9
    have hcsT := callsSpec_analyzeLoop vs sr start true (totalToAnalyze vs sr start ef)
      (actualEndFrame vs ef - start) start initState
      (callsSpec_initState true (totalToAnalyze vs sr start ef))
    have hcsF := callsSpec_analyzeLoop vs sr start false (totalToAnalyze vs sr start ef)
      (actualEndFrame vs ef - start) start initState
      (callsSpec_initState false (totalToAnalyze vs sr start ef))
    rw [callsSpec] at hcsT hcsF
    simp only [if_true, if_false, Bool.false_eq_true] at hcsT hcsF
    by_cases h0 : (analyzeLoop vs sr start true (totalToAnalyze vs sr start ef) start
        (actualEndFrame vs ef - start) initState).analyzed_count = 0
    · have h0F : (analyzeLoop vs sr start false (totalToAnalyze vs sr start ef) start
          (actualEndFrame vs ef - start) initState).analyzed_count = 0 := by
        rw [h9, h0]
      rw [h0] at hcsT
      simp only [List.range_zero, List.map_nil] at hcsT
      simp [analyze_video_quality, hop, hsr0, h0, h0F, hcsT, hcsF, StatsDict.empty]
    · have h0F : ¬ (analyzeLoop vs sr start false (totalToAnalyze vs sr start ef) start
          (actualEndFrame vs ef - start) initState).analyzed_count = 0 := by
        rw [h9]; exact h0
      obtain ⟨g1, -⟩ :=
        goodState_analyzeLoop vs sr start true (totalToAnalyze vs sr start ef)
          (actualEndFrame vs ef - start) start initState goodState_initState
      have e1 := congrArg LoopState.clarity hdc
      have e2 := congrArg LoopState.exposure hdc
      have e3 := congrArg LoopState.contrast hdc
      have e4 := congrArg LoopState.num_images hdc
      have e5 := congrArg LoopState.blurry hdc
      have e6 := congrArg LoopState.under_exposed hdc
      have e7 := congrArg LoopState.over_exposed hdc
      have e8 := congrArg LoopState.low_contrast hdc
      simp only [dropCalls] at e1 e2 e3 e4 e5 e6 e7 e8
      refine ⟨?_, ?_, ?_, ?_, ?_⟩ <;>
        simp [analyze_video_quality, hop, hsr0, h0, h0F, hcsT, hcsF, g1, h9,
          e1, e2, e3, e4, e5, e6, e7, e8]

/-- C5 (counterexample): `validate_video_file` on a path that does not
exist propagates the `FileNotFoundError` raised by the validator's
constructor instead of returning a terminal `PipelineOutput`, refuting
the claim for arbitrary input paths. -/
theorem C5_counterexample :
    validate_video_file false
        ⟨false, 0, 0, fun _ => false, fun _ => false, fun _ => none⟩ 30 0 none false
      = .error fileNotFoundMsg := rfl

/-- C5 (amended): for every existing input path, `validate_video_file`
never raises — it returns a `PipelineOutput` — and every analyzer or
validator failure is converted into a terminal output with
`passed = false`, `status = "bad"`, empty issues/details/stats and the
failure's message. -/
theorem C5_no_raise_for_existing_path (vs : VideoStream) (sr start : Nat)
    (ef : Option Nat) (hc : Bool) :
    ∃ po, validate_video_file true vs sr start ef hc = .ok po ∧
      ((analyze_video_quality vs sr start ef hc).success = false →
        po = ⟨false, badStatus, false, false,
          (analyze_video_quality vs sr start ef hc).message, none, [], none, none⟩) ∧
      ((analyze_video_quality vs sr start ef hc).success = true →
        (validate_quality (analyze_video_quality vs sr start ef hc).stats).success
            = false →
          po = ⟨false, badStatus, true, false,
            (analyze_video_quality vs sr start ef hc).message,
            some (validate_quality (analyze_video_quality vs sr start ef hc).stats).message,
            [], none, none⟩) := by
  refine ⟨run vs sr start ef hc, rfl, ?_, ?_⟩
  · intro ha
    simp [run, ha]
  · intro ha hv
    simp [run, ha, hv]

/-! ### Concrete fixtures and witnesses -/

/-- An unopenable stream. -/
def closedStream : VideoStream :=
  ⟨false, 0, 0, fun _ => false, fun _ => false, fun _ => none⟩

/-- An opened stream with zero frames. -/
def emptyStream : VideoStream :=
  ⟨true, 0, 0, fun _ => false, fun _ => false, fun _ => none⟩

/-- A ten-frame stream whose frame `i` carries metrics `(i, i, i)` and
whose end-of-stream is at index 6. -/
def streamL : VideoStream :=
  ⟨true, 10, 30, fun i => decide (i < 6), fun _ => true, fun i => some ⟨i, i, i⟩⟩

/-- A fully available ten-frame stream with bright sharp frames, whose
frame at index 2 fails to convert (per-frame exception). -/
def testStreamSkips : VideoStream :=
  ⟨true, 10, 30, fun i => decide (i < 10), fun _ => true,
    fun i => if i = 2 then none else some ⟨100, 100, 100⟩⟩

/-- The spec's other threshold scenario: 100 analyzed frames, 12 blurry,
no exposure or contrast failures. -/
def scenario100 : StatsDict :=
  ⟨none, none, none, some 100, some 12, some 0, some 0, some 0, none, none, none, none⟩

/-- Four frames with one failure of each kind. -/
def sdQuarter : StatsDict :=
  ⟨none, none, none, some 4, some 1, some 1, some 1, some 1, none, none, none, none⟩

/-- A stats dict with `num_images` present but all counters missing. -/
def sdMissing : StatsDict :=
  ⟨none, none, none, some 5, none, none, none, none, none, none, none, none⟩

theorem C1_witness :
    ((run closedStream 30 0 none false).status = goodStatus
        ↔ (run closedStream 30 0 none false).passed = true) ∧
      ((run closedStream 30 0 none false).analyze_success = false →
        (run closedStream 30 0 none false).passed = false
          ∧ (run closedStream 30 0 none false).status = badStatus) ∧
      ((run closedStream 30 0 none false).validate_success = false →
        (run closedStream 30 0 none false).passed = false
          ∧ (run closedStream 30 0 none false).status = badStatus) :=
  C1_status_iff_passed closedStream 30 0 none false

theorem C2_witness :
    0 < scenario100.num_images.getD 0 ∧
      ∃ vr, (validate_quality scenario100).result = some vr ∧
        (vr.passed = true ↔ vr.issues = []) ∧
        (Check.clarity ∈ vr.issues ↔ MAX_BLURRY_PCT < blurryPct scenario100) ∧
        (Check.exposure ∈ vr.issues ↔ MAX_EXPOSURE_PCT < exposurePct scenario100) ∧
        (Check.contrast ∈ vr.issues ↔ MAX_LOW_CONTRAST_PCT < lowContrastPct scenario100) :=
  ⟨by decide, C2_strict_thresholds.1 scenario100 (by decide)⟩

theorem C3_witness :
    0 < sdQuarter.num_images.getD 0 ∧
      ∃ vr, (validate_quality sdQuarter).result = some vr
        ∧ vr.stats.blurry_pct = 25 := by
  refine ⟨by decide, ?_⟩
  obtain ⟨vr, hvr, h1, -⟩ := C3_percentage_formulas sdQuarter (by decide)
  refine ⟨vr, hvr, ?_⟩
  rw [h1]
  norm_num [sdQuarter]

theorem C5_witness :
    validate_video_file true closedStream 30 0 none false
      = .ok ⟨false, badStatus, false, false, .unopenable, none, [], none, none⟩ := by
  obtain ⟨po, h1, h2, -⟩ := C5_no_raise_for_existing_path closedStream 30 0 none false
  rw [h1, h2 rfl]
  rfl

theorem C6_witness :
    (analyze_video_quality streamL 2 0 none false).stats.num_images = some 3 := by
  have h := C6_sampling_walk streamL 2 0 none false 6 (fun i => ⟨(i : ℚ), (i : ℚ), (i : ℚ)⟩)
    (by decide) rfl (fun i => rfl) (fun i => rfl) (fun i => rfl)
  have hne : sampledIdx 2 0 0 (min 6 (actualEndFrame streamL none) - 0) ≠ [] := by decide
  have h4 := (h.2 hne).2.2.2
  rw [h4]
  rfl

theorem C7_witness :
    analyze_video_quality closedStream 30 0 none false
        = ⟨false, .unopenable, .empty, []⟩ ∧
      analyze_video_quality emptyStream 30 0 none false
        = ⟨false, .noFramesAnalyzed, .empty, []⟩ ∧
      ((validate_quality StatsDict.empty).success = false
        ↔ StatsDict.empty.num_images.getD 0 = 0) :=
  ⟨C7_failure_taxonomy.1 closedStream 30 0 none false rfl,
    C7_failure_taxonomy.2.1 emptyStream 30 0 none false rfl (by decide) rfl,
    (C7_failure_taxonomy.2.2 StatsDict.empty).1⟩

theorem C8_witness :
    (analyze_video_quality testStreamSkips 2 0 none false).success = true ∧
      ∃ n cl ex co,
        (analyze_video_quality testStreamSkips 2 0 none false).stats.num_images = some n ∧
        (analyze_video_quality testStreamSkips 2 0 none false).stats.clarity = some cl ∧
        (analyze_video_quality testStreamSkips 2 0 none false).stats.exposure = some ex ∧
        (analyze_video_quality testStreamSkips 2 0 none false).stats.contrast = some co ∧
        cl.length = n ∧ ex.length = n ∧ co.length = n ∧
        (analyze_video_quality testStreamSkips 2 0 none false).stats.blurry.getD 0 ≤ n ∧
        (analyze_video_quality testStreamSkips 2 0 none false).stats.under_exposed.getD 0
          ≤ n ∧
        (analyze_video_quality testStreamSkips 2 0 none false).stats.over_exposed.getD 0
          ≤ n ∧
        (analyze_video_quality testStreamSkips 2 0 none false).stats.low_contrast.getD 0
          ≤ n :=
  ⟨by decide, C8_stats_invariants testStreamSkips 2 0 none false (by decide)⟩

theorem C9_witness :
    0 < 2 ∧
      (analyze_video_quality streamL 2 0 none true).calls
        = (List.range
              ((analyze_video_quality streamL 2 0 none true).stats.num_images.getD 0)).map
            (fun j => (j + 1, totalToAnalyze streamL 2 0 none)) :=
  ⟨by decide, (C9_progress_callback streamL 2 0 none (by decide)).1⟩

theorem C10_witness :
    0 < sdMissing.num_images.getD 0 ∧
      ((validate_quality sdMissing).success = true ∧
        (sdMissing.blurry = none → blurryPct sdMissing = 0) ∧
        (sdMissing.under_exposed = none → underExposedPct sdMissing = 0) ∧
        (sdMissing.over_exposed = none → overExposedPct sdMissing = 0) ∧
        (sdMissing.low_contrast = none → lowContrastPct sdMissing = 0)) ∧
      validate_quality StatsDict.empty = ⟨false, .noData, none⟩ :=
  ⟨by decide, C10_missing_keys_default.1 sdMissing (by decide),
    C10_missing_keys_default.2 StatsDict.empty rfl⟩

end VideoValidation
